import Mathlib

/-!
Shallow embedding of the World Bank ETL pipeline (src/etl.py).

Tables are modelled as lists of typed rows.  A wide table keeps its year
columns as a list of labels plus, per row, a list of cells aligned with the
labels.  Numeric cell values are `Option ℚ` (`none` is the missing-value
marker `NaN`; IEEE specials produced by division by zero are also collapsed
into `none`, see `safeDiv`).  String-valued fields that the pipeline may
leave missing are `Option String`.
-/

namespace ETL

/-- A row of the cleaned main (GDP) table: fixed identifier columns
`country_name, country_code, region, incomegroup` plus the year cells,
aligned with the owning table's `yearCols`. -/
structure MainRow where
  country_name : String
  country_code : String
  region : Option String
  incomegroup : Option String
  cells : List (Option ℚ)
deriving DecidableEq

/-- The wide-format main table: year-column labels plus rows. -/
structure MainTable where
  yearCols : List String
  rows : List MainRow
deriving DecidableEq

/-- A row of the population table: identifier columns
`country_name, country_code` plus year cells. -/
structure PopRow where
  country_name : String
  country_code : String
  cells : List (Option ℚ)
deriving DecidableEq

/-- The wide-format population table. -/
structure PopTable where
  yearCols : List String
  rows : List PopRow
deriving DecidableEq

/-- `col.isdigit()` of Python on a column label (ASCII digits). -/
def isYearCol (s : String) : Bool :=
  decide (s ≠ "") && s.data.all Char.isDigit

/-- `int(s)` on a digit string: fold the decimal digits. -/
def parseYear (s : String) : Nat :=
  s.data.foldl (fun a c => 10 * a + (c.toNat - 48)) 0

/-- `valid_years = [str(y) for y in range(1960, 2024)]` (the literal value of
the comprehension at src/etl.py:94). -/
def valid_years : List String :=
  ["1960", "1961", "1962", "1963", "1964", "1965", "1966", "1967",
   "1968", "1969", "1970", "1971", "1972", "1973", "1974", "1975",
   "1976", "1977", "1978", "1979", "1980", "1981", "1982", "1983",
   "1984", "1985", "1986", "1987", "1988", "1989", "1990", "1991",
   "1992", "1993", "1994", "1995", "1996", "1997", "1998", "1999",
   "2000", "2001", "2002", "2003", "2004", "2005", "2006", "2007",
   "2008", "2009", "2010", "2011", "2012", "2013", "2014", "2015",
   "2016", "2017", "2018", "2019", "2020", "2021", "2022", "2023"]

/-- The apostrophe character, built from its code point to keep source
punctuation out of string literals. -/
def apos : Char := Char.ofNat 39

/-- The o-circumflex character of the corrected country name. -/
def ocirc : Char := Char.ofNat 244

/-- `country_map = {"Kenia": "Kenya", "Cote d'Ivoire": "Côte d'Ivoire"}`
(src/etl.py:92), with the non-ASCII/punctuation characters assembled from
code points. -/
def country_map : List (String × String) :=
  [("Kenia", "Kenya"),
   ("Cote d" ++ apos.toString ++ "Ivoire",
    "C" ++ ocirc.toString ++ "te d" ++ apos.toString ++ "Ivoire")]

/-- `Series.replace(country_map)`: exact full-string replacement. -/
def fixName (s : String) : String :=
  match List.lookup s country_map with
  | some t => t
  | none => s

/-- `drop_duplicates()` keeping the first occurrence of each duplicate. -/
def dedupGo [DecidableEq α] (seen : List α) : List α → List α
  | [] => []
  | x :: xs => if x ∈ seen then dedupGo seen xs else x :: dedupGo (x :: seen) xs

/-- `DataFrame.drop_duplicates()` (keep the first occurrence). -/
def dropDuplicates [DecidableEq α] (l : List α) : List α := dedupGo [] l

/-- The cells of a row that survive dropping the labels in `bad`. -/
def keepCells (yearCols bad : List String) (cells : List (Option ℚ)) :
    List (Option ℚ) :=
  ((yearCols.zip cells).filter (fun q => decide (q.1 ∉ bad))).map Prod.snd

/-- `df.drop(columns=bad)`: remove every year column whose label is in
`bad`, from the label list and from each row's cells. -/
def dropCols (bad : List String) (t : MainTable) : MainTable :=
  { yearCols := t.yearCols.filter (fun c => decide (c ∉ bad)),
    rows := t.rows.map (fun r =>
      { r with cells := keepCells t.yearCols bad r.cells }) }

/-- `main_df[col].isnull().all()` for a year-column label: every cell in
every position carrying this label is missing.  This is the year-column
component of the all-null mask of src/etl.py:97; the id-column component
is `dropsIdCols` below. -/
def colAllMissing (t : MainTable) (c : String) : Bool :=
  t.rows.all (fun r =>
    ((t.yearCols.zip r.cells).filter (fun p => decide (p.1 = c))).all
      (fun p => p.2.isNone))

/-- `main_df['region'].isnull().all()`: the region column is entirely
missing (vacuously true of an empty frame, as in pandas). -/
def regionAllMissing (t : MainTable) : Bool :=
  t.rows.all (fun r => r.region.isNone)

/-- `main_df['incomegroup'].isnull().all()`. -/
def incomeAllMissing (t : MainTable) : Bool :=
  t.rows.all (fun r => r.incomegroup.isNone)

/-- The id-column component of the all-null mask of src/etl.py:97: the
drop at that line removes every all-`NaN` column, id columns included.
In the typed view `country_name` and `country_code` are non-nullable
strings, so the nullable id columns `region` and `incomegroup` are the
ones the all-null rule can remove; when it does, `pd.melt` later raises
`KeyError` on its missing `id_vars` (src/etl.py:112–114). -/
def dropsIdCols (t : MainTable) : Bool :=
  regionAllMissing t || incomeAllMissing t

/-- `main_df.drop_duplicates(inplace=True)` (src/etl.py:88). -/
def clean_dedup (t : MainTable) : MainTable :=
  { t with rows := dropDuplicates t.rows }

/-- `main_df['country_name'].replace(country_map)` (src/etl.py:93). -/
def clean_names (t : MainTable) : MainTable :=
  { t with rows := t.rows.map (fun r =>
      { r with country_name := fixName r.country_name }) }

/-- `invalid = [col for col in year_cols if col not in valid_years]`
(src/etl.py:95); `year_cols` are the digit-labelled columns. -/
def invalidCols (t : MainTable) : List String :=
  (t.yearCols.filter isYearCol).filter (fun c => decide (c ∉ valid_years))

/-- The year-column part of `main_df.columns[main_df.isnull().all()]`
(src/etl.py:97).  The same mask also covers the id columns: that part is
`dropsIdCols`, consumed by `clean_gdp_long`, because dropping a nullable
id column makes the downstream melt raise instead of reshaping. -/
def emptyCols (t : MainTable) : List String :=
  t.yearCols.filter (colAllMissing t)

/-- `clean_data` on the main table (src/etl.py:83–98), over typed cells:
drop exact duplicate rows, apply the fixed country-name correction map,
drop year columns outside `valid_years`, drop all-missing year columns.
(The sentinel replacement and `astype(float)` happen on the raw strings
before this typed view and are modelled separately by `clean_replace`;
`str.strip` of text columns is the identity on the typed fields.) -/
def clean_main (t : MainTable) : MainTable :=
  let t2 := clean_names (clean_dedup t)
  let t3 := dropCols (invalidCols t2) t2
  dropCols (emptyCols t3) t3

/-- `value_vars = [col for col in main_clean.columns if col.isdigit()]`
(src/etl.py:113). -/
def digitCols (t : MainTable) : List String := t.yearCols.filter isYearCol

/-- A row of the long-format GDP table produced by `pd.melt` (Q21). -/
structure GdpRow where
  country_name : String
  country_code : String
  region : Option String
  incomegroup : Option String
  year : Nat
  gdp : Option ℚ
deriving DecidableEq

/-- A row of the long-format population table produced by `pd.melt` (Q22). -/
structure PopLongRow where
  country_name : String
  country_code : String
  year : Nat
  population : Option ℚ
deriving DecidableEq

/-- `df[c]` for a year-column label: the cell at the first position of the
label (missing if the label is absent). -/
def cellAt (yearCols : List String) (cells : List (Option ℚ)) (c : String) :
    Option ℚ :=
  (List.lookup c (yearCols.zip cells)).getD none

/-- `pd.melt(main_clean, id_vars=..., value_vars=...)` followed by
`astype(int)` on the year (src/etl.py:114–115).  `pd.melt` emits the rows
column by column: for each value column in order, one row per table row. -/
def gdp_long (m : MainTable) : List GdpRow :=
  (digitCols m).flatMap (fun c =>
    m.rows.map (fun r =>
      { country_name := r.country_name, country_code := r.country_code,
        region := r.region, incomegroup := r.incomegroup,
        year := parseYear c, gdp := cellAt m.yearCols r.cells c }))

/-- The unpivoted GDP table of `clean_data` followed by
`transform_data`: `none` when the run crashes before the melt finishes.
The all-null drop of src/etl.py:97 removes an entirely missing `region`
or `incomegroup` column (mask computed on the frame after the
duplicate-row, name-fix and invalid-year steps), and `pd.melt` at
src/etl.py:114 then raises `KeyError` because its `id_vars` are gone. -/
def clean_gdp_long (t : MainTable) : Option (List GdpRow) :=
  let t2 := clean_names (clean_dedup t)
  let t3 := dropCols (invalidCols t2) t2
  if dropsIdCols t3 then none else some (gdp_long (clean_main t))

/-- `pd.melt(pop_clean, id_vars=['country_name','country_code'],
value_vars=value_vars)` with the year parsed to int (src/etl.py:118–119).
The `value_vars` are the main table's digit columns; `pd.melt` raises a
`KeyError` when any of them is absent from the frame, modelled as `none`. -/
def pop_long (m : MainTable) (p : PopTable) : Option (List PopLongRow) :=
  if (digitCols m).all (fun c => p.yearCols.contains c) then
    some ((digitCols m).flatMap (fun c =>
      p.rows.map (fun r =>
        { country_name := r.country_name, country_code := r.country_code,
          year := parseYear c, population := cellAt p.yearCols r.cells c })))
  else none

/-- A population table extended with one extra year column holding the
value `v` on every row (used to state that columns private to the
population table are ignored by the transform). -/
def appendCol (p : PopTable) (c : String) (v : Option ℚ) : PopTable :=
  { yearCols := p.yearCols ++ [c],
    rows := p.rows.map (fun r => { r with cells := r.cells ++ [v] }) }

/-- A row of the joined table; the derived columns added by later transform
steps start out missing, as an unassigned pandas column would be. -/
structure MergedRow where
  country_name : String
  country_code : String
  region : Option String
  incomegroup : Option String
  year : Nat
  gdp : Option ℚ
  population : Option ℚ
  gdp_per_capita : Option ℚ
  gdp_pc_change : Option ℚ
  continent : Option String
deriving DecidableEq

/-- The join key of `merge(on=['country_code','country_name','year'])`. -/
def popKey (q : PopLongRow) : String × String × Nat :=
  (q.country_code, q.country_name, q.year)

/-- The same key on the left-hand (GDP) side. -/
def gdpKey (g : GdpRow) : String × String × Nat :=
  (g.country_code, g.country_name, g.year)

/-- Build one joined row from a GDP row and the matched population value. -/
def mergeRows (g : GdpRow) (pop : Option ℚ) : MergedRow :=
  { country_name := g.country_name, country_code := g.country_code,
    region := g.region, incomegroup := g.incomegroup, year := g.year,
    gdp := g.gdp, population := pop, gdp_per_capita := none,
    gdp_pc_change := none, continent := none }

/-- Projection back to the left-hand row (drops the joined columns). -/
def toGdpRow (x : MergedRow) : GdpRow :=
  { country_name := x.country_name, country_code := x.country_code,
    region := x.region, incomegroup := x.incomegroup, year := x.year,
    gdp := x.gdp }

/-- `gdp_long.merge(pop_long, on=['country_code','country_name','year'],
how='left')` (src/etl.py:120): every left row, paired with each matching
right row in order, or with a missing population when unmatched. -/
def mergeLeft (gdp : List GdpRow) (popL : List PopLongRow) : List MergedRow :=
  gdp.flatMap (fun g =>
    match popL.filter (fun q => decide (popKey q = gdpKey g)) with
    | [] => [mergeRows g none]
    | q :: qs => (q :: qs).map (fun q2 => mergeRows g q2.population))

/-- Float division lifted to missing-aware values:
`merged['gdp'] / merged['population']` yields `NaN`/`inf` when the divisor
is missing or zero (or the dividend is missing); all such undefined
results are collapsed into `none`. -/
def safeDiv : Option ℚ → Option ℚ → Option ℚ
  | some a, some b => if b = 0 then none else some (a / b)
  | _, _ => none

/-- `merged['gdp_per_capita'] = merged['gdp'] / merged['population']`
(src/etl.py:123). -/
def withRatio (l : List MergedRow) : List MergedRow :=
  l.map (fun x => { x with gdp_per_capita := safeDiv x.gdp x.population })

/-- The code points of a string, compared lexicographically: the order
Python uses to compare strings when sorting. -/
def strKey (s : String) : List Nat := s.data.map Char.toNat

/-- `sort_values(['country_code', 'year'])`: lexicographic on the pair. -/
def byCodeYear (a b : MergedRow) : Prop :=
  strKey a.country_code < strKey b.country_code ∨
    (strKey a.country_code = strKey b.country_code ∧ a.year ≤ b.year)

/-- `sort_values(['country_name', 'year'])`: lexicographic on the pair. -/
def byNameYear (a b : MergedRow) : Prop :=
  strKey a.country_name < strKey b.country_name ∨
    (strKey a.country_name = strKey b.country_name ∧ a.year ≤ b.year)

instance : DecidableRel byCodeYear := fun a b =>
  inferInstanceAs (Decidable
    (strKey a.country_code < strKey b.country_code ∨
      (strKey a.country_code = strKey b.country_code ∧ a.year ≤ b.year)))

instance : DecidableRel byNameYear := fun a b =>
  inferInstanceAs (Decidable
    (strKey a.country_name < strKey b.country_name ∨
      (strKey a.country_name = strKey b.country_name ∧ a.year ≤ b.year)))

/-- `merged.sort_values(['country_code', 'year'])` (src/etl.py:124). -/
def sortCodeYear (l : List MergedRow) : List MergedRow :=
  l.insertionSort byCodeYear

/-- `merged.sort_values(['country_name', 'year'])` (src/etl.py:141). -/
def sortNameYear (l : List MergedRow) : List MergedRow :=
  l.insertionSort byNameYear

/-- One step of `pct_change`: the fractional change of `cur` against
`prev`; missing when either value is missing, and undefined (collapsed to
missing) when the previous value is zero. -/
def pct_change (prev cur : Option ℚ) : Option ℚ :=
  match prev, cur with
  | some p, some c => if p = 0 then none else some ((c - p) / p)
  | _, _ => none

/-- The last element of a list satisfying `p`, if any. -/
def lastWith (p : α → Bool) : List α → Option α
  | [] => none
  | x :: xs =>
      match lastWith p xs with
      | some y => some y
      | none => if p x then some x else none

/-- Worker of `groupby('country_code')['gdp_per_capita'].pct_change()`:
scan the rows in order, and give each row the fractional change of its
ratio against the previous row of the same `country_code` (the rows
already consumed are the accumulated context). -/
def pctChangeGo (ctx : List MergedRow) : List MergedRow → List MergedRow
  | [] => []
  | r :: rs =>
      let prev := lastWith (fun q => decide (q.country_code = r.country_code)) ctx
      let ch := match prev with
        | none => none
        | some q => pct_change q.gdp_per_capita r.gdp_per_capita
      { r with gdp_pc_change := ch } :: pctChangeGo (ctx ++ [r]) rs

/-- `merged['gdp_pc_change'] =
merged.groupby('country_code')['gdp_per_capita'].pct_change()`
(src/etl.py:125), with the default of pandas ≥ 3 (no forward filling):
each row against the previous row of its group in the current row order. -/
def withChange (l : List MergedRow) : List MergedRow := pctChangeGo [] l

/-- `continent_map` (src/etl.py:133–137). -/
def continent_map : List (String × String) :=
  [("Latin America & Caribbean", "Americas"), ("South Asia", "Asia"),
   ("Sub-Saharan Africa", "Africa"), ("Europe & Central Asia", "Europe"),
   ("Middle East & North Africa", "Asia"), ("East Asia & Pacific", "Asia"),
   ("North America", "Americas")]

/-- `Series.map(continent_map)`: keys absent from the dict (and missing
regions) map to `NaN`. -/
def mapContinent (region : Option String) : Option String :=
  region.bind (fun s => List.lookup s continent_map)

/-- `merged['continent'] = merged['region'].map(continent_map)`
(src/etl.py:138). -/
def withContinent (l : List MergedRow) : List MergedRow :=
  l.map (fun x => { x with continent := mapContinent x.region })

/-- `merged['year'].between(2010, 2020)`: the inclusive year filter
(src/etl.py:142). -/
def inWindow (x : MergedRow) : Bool :=
  decide (2010 ≤ x.year) && decide (x.year ≤ 2020)

/-- The round-half-to-even integer rounding used by
`numpy`/`DataFrame.round`. -/
def roundHalfEven (x : ℚ) : ℤ :=
  let f := ⌊x⌋
  if x - f < 1/2 then f
  else if (1:ℚ)/2 < x - f then f + 1
  else if f % 2 = 0 then f else f + 1

/-- `round(d)` on a numeric value: round half to even at `d` decimals. -/
def roundTo (d : Nat) (x : ℚ) : ℚ := (roundHalfEven (x * 10 ^ d) : ℚ) / 10 ^ d

/-- `round` is missing-preserving (`NaN` stays `NaN`). -/
def roundOpt (d : Nat) : Option ℚ → Option ℚ := Option.map (roundTo d)

/-- `final[['gdp','gdp_per_capita']].round(2)` and
`final['gdp_pc_change'].round(4)` (src/etl.py:147–148). -/
def roundRow (x : MergedRow) : MergedRow :=
  { x with gdp := roundOpt 2 x.gdp,
           gdp_per_capita := roundOpt 2 x.gdp_per_capita,
           gdp_pc_change := roundOpt 4 x.gdp_pc_change }

/-- The joined table with the derived ratio (src/etl.py:113–123), or
`none` when the population melt raises. -/
def merged_ratio (m : MainTable) (p : PopTable) : Option (List MergedRow) :=
  (pop_long m p).map (fun pl => withRatio (mergeLeft (gdp_long m) pl))

/-- The joined table after `sort_values(['country_code','year'])`
(src/etl.py:124). -/
def merged_sortedCY (m : MainTable) (p : PopTable) : Option (List MergedRow) :=
  (merged_ratio m p).map sortCodeYear

/-- The joined table after the per-entity `pct_change` (src/etl.py:125). -/
def merged_change (m : MainTable) (p : PopTable) : Option (List MergedRow) :=
  (merged_sortedCY m p).map withChange

/-- The joined table after the continent remap (src/etl.py:138). -/
def merged_continent (m : MainTable) (p : PopTable) : Option (List MergedRow) :=
  (merged_change m p).map withContinent

/-- The joined table after `sort_values(['country_name','year'])`
(src/etl.py:141), the state immediately before the year filter. -/
def merged_sortedNY (m : MainTable) (p : PopTable) : Option (List MergedRow) :=
  (merged_continent m p).map sortNameYear

/-- `transform_data` (src/etl.py:108–156): melt both tables, left-join,
derive ratio and change, remap continents, sort, filter to 2010–2020 and
round; `none` when the population melt raises. -/
def transform_data (m : MainTable) (p : PopTable) : Option (List MergedRow) :=
  (merged_sortedNY m p).map (fun l => (l.filter inWindow).map roundRow)

/-- The raw three loaded tables as grids of string cells (`none` is `NaN`),
the view on which `clean_data` replaces sentinel tokens (src/etl.py:85). -/
structure RawTables where
  main : List (List (Option String))
  meta : List (List (Option String))
  pop : List (List (Option String))
deriving DecidableEq

/-- The sentinel list of `main_df.replace(["..", "", " "], np.nan)`. -/
def sentinel_tokens : List String := ["..", "", " "]

/-- Replace one cell if it is a sentinel token. -/
def replaceSentinel (cell : Option String) : Option String :=
  match cell with
  | some s => if s ∈ sentinel_tokens then none else some s
  | none => none

/-- `main_df.replace(["..", "", " "], np.nan, inplace=True)`
(src/etl.py:85): the replacement is applied to the main table only; the
metadata and population tables pass through `clean_data` untouched by it. -/
def clean_replace (t : RawTables) : RawTables :=
  { t with main := t.main.map (List.map replaceSentinel) }

/-- The entity-attribute projection of a final-export row, the column list
of `final_df[['country_code','country_name','region','incomegroup']]`
(src/etl.py:202). -/
def countryTuple (x : MergedRow) : String × String × Option String × Option String :=
  (x.country_code, x.country_name, x.region, x.incomegroup)

/-- `countries_df = final_df[[...]].drop_duplicates()` (src/etl.py:202):
the rows inserted into the `countries` table. -/
def countries_df (final : List MergedRow) :
    List (String × String × Option String × Option String) :=
  dropDuplicates (final.map countryTuple)

/-! Concrete tables and rows used by the per-claim theorems and
their witnesses. -/

instance : IsTotal MergedRow byCodeYear := ⟨by
  intro a b
  rcases lt_trichotomy (strKey a.country_code) (strKey b.country_code) with h | h | h
  · exact Or.inl (Or.inl h)
  · rcases Nat.le_total a.year b.year with hy | hy
    · exact Or.inl (Or.inr ⟨h, hy⟩)
    · exact Or.inr (Or.inr ⟨h.symm, hy⟩)
  · exact Or.inr (Or.inl h)⟩

instance : IsTrans MergedRow byCodeYear := ⟨by
  intro a b c hab hbc
  rcases hab with h1 | ⟨h1, hy1⟩ <;> rcases hbc with h2 | ⟨h2, hy2⟩
  · exact Or.inl (lt_trans h1 h2)
  · exact Or.inl (lt_of_lt_of_le h1 (le_of_eq h2))
  · exact Or.inl (lt_of_le_of_lt (le_of_eq h1) h2)
  · exact Or.inr ⟨h1.trans h2, le_trans hy1 hy2⟩⟩

instance : IsTotal MergedRow byNameYear := ⟨by
  intro a b
  rcases lt_trichotomy (strKey a.country_name) (strKey b.country_name) with h | h | h
  · exact Or.inl (Or.inl h)
  · rcases Nat.le_total a.year b.year with hy | hy
    · exact Or.inl (Or.inr ⟨h, hy⟩)
    · exact Or.inr (Or.inr ⟨h.symm, hy⟩)
  · exact Or.inr (Or.inl h)⟩

instance : IsTrans MergedRow byNameYear := ⟨by
  intro a b c hab hbc
  rcases hab with h1 | ⟨h1, hy1⟩ <;> rcases hbc with h2 | ⟨h2, hy2⟩
  · exact Or.inl (lt_trans h1 h2)
  · exact Or.inl (lt_of_lt_of_le h1 (le_of_eq h2))
  · exact Or.inl (lt_of_le_of_lt (le_of_eq h1) h2)
  · exact Or.inr ⟨h1.trans h2, le_trans hy1 hy2⟩⟩

/-- A final export whose two rows share `country_code` but disagree on
`country_name`. -/
def finalDupCodes : List MergedRow :=
  [{ country_name := "A", country_code := "AAA", region := none,
     incomegroup := none, year := 2019, gdp := none, population := none,
     gdp_per_capita := none, gdp_pc_change := none, continent := none },
   { country_name := "B", country_code := "AAA", region := none,
     incomegroup := none, year := 2019, gdp := none, population := none,
     gdp_per_capita := none, gdp_pc_change := none, continent := none }]

/-- A final export whose rows agree on the entity attributes per code. -/
def finalAgree : List MergedRow :=
  [{ country_name := "A", country_code := "AAA", region := some "South Asia",
     incomegroup := none, year := 2019, gdp := none, population := none,
     gdp_per_capita := none, gdp_pc_change := none, continent := none },
   { country_name := "A", country_code := "AAA", region := some "South Asia",
     incomegroup := none, year := 2020, gdp := none, population := none,
     gdp_per_capita := none, gdp_pc_change := none, continent := none },
   { country_name := "B", country_code := "BBB", region := none,
     incomegroup := none, year := 2019, gdp := none, population := none,
     gdp_per_capita := none, gdp_pc_change := none, continent := none }]

/-- A cleaned main table with years 2009 and 2015 for the C5 witness. -/
def mainW5 : MainTable :=
  { yearCols := ["2009", "2015"],
    rows := [{ country_name := "A", country_code := "AAA", region := none,
               incomegroup := none, cells := [none, none] }] }

/-- The matching population table for the C5 witness. -/
def popW5 : PopTable :=
  { yearCols := ["2009", "2015"],
    rows := [{ country_name := "A", country_code := "AAA",
               cells := [none, none] }] }

/-- The pre-filter row of `mainW5`/`popW5` for year 2009. -/
def rW09 : MergedRow :=
  { country_name := "A", country_code := "AAA", region := none,
    incomegroup := none, year := 2009, gdp := none, population := none,
    gdp_per_capita := none, gdp_pc_change := none, continent := none }

/-- The pre-filter row of `mainW5`/`popW5` for year 2015. -/
def rW15 : MergedRow :=
  { country_name := "A", country_code := "AAA", region := none,
    incomegroup := none, year := 2015, gdp := none, population := none,
    gdp_per_capita := none, gdp_pc_change := none, continent := none }

/-- A one-row cleaned main table. -/
def mainOne : MainTable :=
  { yearCols := ["2019"],
    rows := [{ country_name := "A", country_code := "AAA", region := none,
               incomegroup := none, cells := [none] }] }

/-- A population table carrying the same key twice (exact duplicate rows
survive `clean_data`, which deduplicates the main table only). -/
def popDupRows : PopTable :=
  { yearCols := ["2019"],
    rows := [{ country_name := "A", country_code := "AAA", cells := [none] },
             { country_name := "A", country_code := "AAA", cells := [none] }] }

/-- A population table with a single, duplicate-free key. -/
def popW2 : PopTable :=
  { yearCols := ["2019"],
    rows := [{ country_name := "A", country_code := "AAA", cells := [none] }] }

/-- The population long table of `mainW2`/`popW2`. -/
def plW2 : List PopLongRow :=
  [{ country_name := "A", country_code := "AAA", year := 2019,
     population := none }]

/-- A main table carrying the same entity code on two distinct rows,
with its id and year columns populated so that `clean_data` drops no
column and the melt is reached. -/
def mainDupCode : MainTable :=
  { yearCols := ["2019"],
    rows := [{ country_name := "A", country_code := "AAA",
               region := some "South Asia", incomegroup := some "High income",
               cells := [some 1] },
             { country_name := "B", country_code := "AAA",
               region := some "South Asia", incomegroup := some "High income",
               cells := [some 2] }] }

/-- A main table with distinct codes and populated id columns for the C4
witness. -/
def mainW4 : MainTable :=
  { yearCols := ["2019", "2020"],
    rows := [{ country_name := "A", country_code := "AAA",
               region := some "South Asia", incomegroup := some "High income",
               cells := [some 1, some 2] },
             { country_name := "B", country_code := "BBB",
               region := some "North America", incomegroup := some "High income",
               cells := [some 3, some 4] }] }

/-- The scenario main table: entity `"A"`/`"AAA"`, region `"South Asia"`,
years 2019 = 100 and 2020 = 110. -/
def mainC3 : MainTable :=
  { yearCols := ["2019", "2020"],
    rows := [{ country_name := "A", country_code := "AAA",
               region := some "South Asia",
               incomegroup := some "Lower middle income",
               cells := [some 100, some 110] }] }

/-- The scenario population table: 2019 = 10 and 2020 = 11. -/
def popC3 : PopTable :=
  { yearCols := ["2019", "2020"],
    rows := [{ country_name := "A", country_code := "AAA",
               cells := [some 10, some 11] }] }

/-- The joined-and-derived rows of the scenario before the continent
remap: ratios 100/10 = 10 and 110/11 = 10, change missing then 0. -/
def rowsC3 (ch1 ch2 : Option ℚ) (cont : Option String) : List MergedRow :=
  [{ country_name := "A", country_code := "AAA", region := some "South Asia",
     incomegroup := some "Lower middle income", year := 2019, gdp := some 100,
     population := some 10, gdp_per_capita := some 10, gdp_pc_change := ch1,
     continent := cont },
   { country_name := "A", country_code := "AAA", region := some "South Asia",
     incomegroup := some "Lower middle income", year := 2020, gdp := some 110,
     population := some 11, gdp_per_capita := some 10, gdp_pc_change := ch2,
     continent := cont }]

/-- The change-example main table: one entity, years 2009–2011 with GDP
100, 120, 90. -/
def mainC1 : MainTable :=
  { yearCols := ["2009", "2010", "2011"],
    rows := [{ country_name := "A", country_code := "AAA", region := none,
               incomegroup := none,
               cells := [some 100, some 120, some 90] }] }

/-- The change-example population table: 10 in every year, so the ratios
are 10, 12, 9. -/
def popC1 : PopTable :=
  { yearCols := ["2009", "2010", "2011"],
    rows := [{ country_name := "A", country_code := "AAA",
               cells := [some 10, some 10, some 10] }] }

/-- One row of the change example. -/
def rowC1 (y : Nat) (g rpc : ℚ) (ch : Option ℚ) : MergedRow :=
  { country_name := "A", country_code := "AAA", region := none,
    incomegroup := none, year := y, gdp := some g, population := some 10,
    gdp_per_capita := some rpc, gdp_pc_change := ch, continent := none }

/-- A cleaned main table (it is its own `clean_data` image) whose two
distinct rows share the entity code `"AAA"` and the single year 2019. -/
def mainDup1 : MainTable :=
  { yearCols := ["2019"],
    rows := [{ country_name := "A", country_code := "AAA",
               region := some "South Asia", incomegroup := some "High income",
               cells := [some 100] },
             { country_name := "B", country_code := "AAA",
               region := some "South Asia", incomegroup := some "High income",
               cells := [some 120] }] }

/-- The population table matching both rows of `mainDup1`. -/
def popDup1 : PopTable :=
  { yearCols := ["2019"],
    rows := [{ country_name := "A", country_code := "AAA", cells := [some 10] },
             { country_name := "B", country_code := "AAA", cells := [some 10] }] }

/-- A joined row of the duplicate-code series (code `"AAA"`, year 2019,
population 10). -/
def rowD (nm : String) (g rpc : ℚ) (ch : Option ℚ) : MergedRow :=
  { country_name := nm, country_code := "AAA", region := some "South Asia",
    incomegroup := some "High income", year := 2019, gdp := some g,
    population := some 10, gdp_per_capita := some rpc, gdp_pc_change := ch,
    continent := none }

/-! Helper lemmas about the embedding's building blocks. -/

/-- `lastWith` finds nothing exactly when nothing satisfies the predicate. -/
theorem lastWith_eq_none {α : Type _} {p : α → Bool} {l : List α} :
    lastWith p l = none ↔ ∀ x ∈ l, p x = false := by
  induction l with
  | nil => simp [lastWith]
  | cons x xs ih =>
    simp only [lastWith]
    cases h : lastWith p xs with
    | some y =>
      constructor
      · intro hc; cases hc
      · intro hall
        have hnone : lastWith p xs = none :=
          ih.mpr fun z hz => hall z (List.mem_cons_of_mem _ hz)
        rw [hnone] at h; cases h
    | none =>
      by_cases hpx : p x = true
      · simp only [hpx, if_true]
        constructor
        · intro hc; cases hc
        · intro hall
          rw [hall x (List.mem_cons_self x xs)] at hpx; cases hpx
      · simp only [Bool.not_eq_true] at hpx
        simp only [hpx, Bool.false_eq_true, if_false, List.mem_cons, true_iff]
        intro z hz
        rcases hz with hz | hz
        · exact hz ▸ hpx
        · exact ih.mp h z hz

/-- What `lastWith` finds satisfies the predicate and is the last such
element: everything after it fails the predicate. -/
theorem lastWith_split {α : Type _} {p : α → Bool} {l : List α} {y : α}
    (h : lastWith p l = some y) :
    p y = true ∧ ∃ l1 l2, l = l1 ++ y :: l2 ∧ ∀ z ∈ l2, p z = false := by
  induction l with
  | nil => cases h
  | cons x xs ih =>
    simp only [lastWith] at h
    cases hx : lastWith p xs with
    | some w =>
      rw [hx] at h
      cases h
      obtain ⟨hp, l1, l2, hsplit, hafter⟩ := ih hx
      exact ⟨hp, x :: l1, l2, by rw [hsplit]; rfl, hafter⟩
    | none =>
      rw [hx] at h
      by_cases hpx : p x = true
      · rw [if_pos hpx] at h
        cases h
        exact ⟨hpx, [], xs, rfl, lastWith_eq_none.mp hx⟩
      · rw [if_neg hpx] at h
        cases h

/-- If some element satisfies the predicate, `lastWith` finds one. -/
theorem lastWith_isSome {α : Type _} {p : α → Bool} {l : List α} {x : α}
    (hx : x ∈ l) (hp : p x = true) : ∃ y, lastWith p l = some y := by
  cases h : lastWith p l with
  | some y => exact ⟨y, rfl⟩
  | none => rw [lastWith_eq_none.mp h x hx] at hp; cases hp

/-- Membership in the deduplication worker. -/
theorem mem_dedupGo [DecidableEq α] {l : List α} :
    ∀ {seen : List α} {x : α}, x ∈ dedupGo seen l ↔ x ∈ l ∧ x ∉ seen := by
  induction l with
  | nil => intro seen x; simp [dedupGo]
  | cons y ys ih =>
    intro seen x
    simp only [dedupGo]
    by_cases hy : y ∈ seen
    · rw [if_pos hy, ih]
      simp only [List.mem_cons]
      constructor
      · rintro ⟨h1, h2⟩; exact ⟨Or.inr h1, h2⟩
      · rintro ⟨h1 | h1, h2⟩
        · exact absurd (h1 ▸ hy) h2
        · exact ⟨h1, h2⟩
    · rw [if_neg hy]
      simp only [List.mem_cons, ih, List.mem_cons]
      constructor
      · rintro (h1 | ⟨h1, h2⟩)
        · exact ⟨Or.inl h1, h1 ▸ hy⟩
        · exact ⟨Or.inr h1, fun hs => h2 (Or.inr hs)⟩
      · rintro ⟨h1 | h1, h2⟩
        · exact Or.inl h1
        · by_cases hxy : x = y
          · exact Or.inl hxy
          · exact Or.inr ⟨h1, by simp [hxy, h2]⟩

/-- The deduplication worker returns a duplicate-free list. -/
theorem nodup_dedupGo [DecidableEq α] (l : List α) :
    ∀ (seen : List α), (dedupGo seen l).Nodup := by
  induction l with
  | nil => intro seen; simp [dedupGo]
  | cons y ys ih =>
    intro seen
    simp only [dedupGo]
    by_cases hy : y ∈ seen
    · rw [if_pos hy]; exact ih seen
    · rw [if_neg hy]
      refine List.nodup_cons.mpr ⟨?_, ih _⟩
      intro hmem
      exact (mem_dedupGo.mp hmem).2 (List.mem_cons_self _ _)

/-- `drop_duplicates` keeps exactly the original elements. -/
theorem mem_dropDuplicates [DecidableEq α] {l : List α} {x : α} :
    x ∈ dropDuplicates l ↔ x ∈ l := by
  unfold dropDuplicates
  rw [mem_dedupGo]
  simp

/-- `drop_duplicates` returns a duplicate-free list. -/
theorem nodup_dropDuplicates [DecidableEq α] (l : List α) :
    (dropDuplicates l).Nodup := nodup_dedupGo l []

/-- The `pct_change` worker distributes over appending, shifting the
context. -/
theorem pctChangeGo_append (l1 : List MergedRow) :
    ∀ (ctx l2 : List MergedRow),
      pctChangeGo ctx (l1 ++ l2) =
        pctChangeGo ctx l1 ++ pctChangeGo (ctx ++ l1) l2 := by
  induction l1 with
  | nil => intro ctx l2; simp [pctChangeGo]
  | cons r rs ih =>
    intro ctx l2
    simp only [List.cons_append, pctChangeGo, List.append_eq]
    rw [ih]
    simp [List.append_assoc]

/-- The `pct_change` worker keeps the row count. -/
theorem length_pctChangeGo (l : List MergedRow) :
    ∀ (ctx : List MergedRow), (pctChangeGo ctx l).length = l.length := by
  induction l with
  | nil => intro ctx; rfl
  | cons r rs ih => intro ctx; simp [pctChangeGo, ih]

/-- A key with at most one carrier in a list with duplicate-free keys:
filtering by that key returns nothing or a single element. -/
theorem filter_key_single {β κ : Type _} [DecidableEq κ] (f : β → κ)
    (l : List β) (k : κ) (h : (l.map f).Nodup) :
    l.filter (fun x => decide (f x = k)) = [] ∨
      ∃ q, l.filter (fun x => decide (f x = k)) = [q] ∧ q ∈ l ∧ f q = k := by
  induction l with
  | nil => exact Or.inl rfl
  | cons x xs ih =>
    simp only [List.map_cons, List.nodup_cons] at h
    obtain ⟨hx, hxs⟩ := h
    rw [List.filter_cons]
    by_cases hfx : f x = k
    · rw [if_pos (by simp [hfx])]
      have hnil : xs.filter (fun z => decide (f z = k)) = [] := by
        rw [List.filter_eq_nil_iff]
        intro z hz hp
        rw [decide_eq_true_iff] at hp
        exact hx (hfx ▸ hp ▸ List.mem_map_of_mem f hz)
      rw [hnil]
      exact Or.inr ⟨x, rfl, List.mem_cons_self _ _, hfx⟩
    · rw [if_neg (by simp [hfx])]
      rcases ih hxs with hnil | ⟨q, hq, hqm, hqk⟩
      · exact Or.inl hnil
      · exact Or.inr ⟨q, hq, List.mem_cons_of_mem _ hqm, hqk⟩

/-! Claim C8: sentinel replacement. -/

/-- Claim C8 counterexample: `clean_data` leaves sentinel tokens in the
metadata and population tables untouched; the replacement is applied to
the main table only, so the claim that it covers all three loaded tables
fails on the table triple below. -/
theorem C8_counterexample :
    (clean_replace
      { main := [[some "x"]], meta := [[some ".."]], pop := [[some ""]] }).meta
        = [[some ".."]] ∧
    (clean_replace
      { main := [[some "x"]], meta := [[some ".."]], pop := [[some ""]] }).pop
        = [[some ""]] ∧
    ".." ∈ sentinel_tokens ∧ "" ∈ sentinel_tokens ∧
    replaceSentinel (some "..") = none ∧ replaceSentinel (some "") = none := by
  exact ⟨rfl, rfl, by decide, by decide, by decide, by decide⟩

/-- Claim C8, amended: `clean_data` replaces the sentinel tokens
(`".."`, `""`, `" "`) with the missing marker uniformly across all fields
of the main table only; the metadata and population tables pass through
unchanged. -/
theorem C8_sentinels_main_only (t : RawTables) :
    (clean_replace t).meta = t.meta ∧
    (clean_replace t).pop = t.pop ∧
    (clean_replace t).main = t.main.map (List.map replaceSentinel) ∧
    (∀ s ∈ sentinel_tokens, replaceSentinel (some s) = none) ∧
    (∀ s : String, s ∉ sentinel_tokens → replaceSentinel (some s) = some s) ∧
    replaceSentinel none = none := by
  refine ⟨rfl, rfl, rfl, ?_, ?_, rfl⟩
  · intro s hs
    simp [replaceSentinel, hs]
  · intro s hs
    simp [replaceSentinel, hs]

/-- Witness for C8: the amended statement applied to a concrete table
triple and concrete cell values. -/
theorem C8_sentinels_main_only_witness :
    (clean_replace
      { main := [[some " "]], meta := [[some "m"]], pop := [[some "p"]] }).meta
        = [[some "m"]] ∧
    replaceSentinel (some " ") = none ∧
    replaceSentinel (some "GDP") = some "GDP" :=
  ⟨(C8_sentinels_main_only
      { main := [[some " "]], meta := [[some "m"]], pop := [[some "p"]] }).1,
   (C8_sentinels_main_only
      { main := [], meta := [], pop := [] }).2.2.2.1 " " (by decide),
   (C8_sentinels_main_only
      { main := [], meta := [], pop := [] }).2.2.2.2.1 "GDP" (by decide)⟩

/-! Claim C9: uniqueness of the inserted country rows. -/

/-- Claim C9 counterexample: deduplicating the four-column projection
does not deduplicate by `country_code`; a final export whose rows share a
code but disagree on the name yields a `countries` row list carrying that
code twice. -/
theorem C9_counterexample :
    ¬ (((countries_df finalDupCodes).map Prod.fst).Nodup) := by decide

/-- Claim C9, amended: the country rows built by `load_to_postgres` are
pairwise distinct as four-column tuples; the `country_code` component is
unique provided all final-export rows sharing a code agree on all four
entity attributes (otherwise the built rows repeat the code and the
primary-key insert cannot succeed). -/
theorem C9_countries_unique (final : List MergedRow) :
    (countries_df final).Nodup ∧
    ((∀ x ∈ final, ∀ y ∈ final,
        x.country_code = y.country_code → countryTuple x = countryTuple y) →
      ((countries_df final).map Prod.fst).Nodup) := by
  constructor
  · exact nodup_dropDuplicates _
  · intro hagree
    apply List.Nodup.map_on
    · intro a ha b hb hab
      have ha2 : a ∈ final.map countryTuple := mem_dropDuplicates.mp ha
      have hb2 : b ∈ final.map countryTuple := mem_dropDuplicates.mp hb
      obtain ⟨x, hx, rfl⟩ := List.mem_map.mp ha2
      obtain ⟨y, hy, rfl⟩ := List.mem_map.mp hb2
      exact hagree x hx y hy hab
    · exact nodup_dropDuplicates _

/-- Witness for C9: the amended statement applied to a concrete export
whose rows agree on attributes per code. -/
theorem C9_countries_unique_witness :
    ((countries_df finalAgree).map Prod.fst).Nodup :=
  (C9_countries_unique finalAgree).2 (by decide)

/-! Claim C6: continent remap. -/

/-- Claim C6: every row's continent is its region mapped through the
fixed `continent_map`; `"Sub-Saharan Africa"` maps to `"Africa"`, a
region absent from the table (or a missing region) yields a missing
continent, with no default and no error. -/
theorem C6_continent_remap (m : MainTable) (p : PopTable) (L : List MergedRow)
    (hL : merged_continent m p = some L) :
    (∀ r ∈ L, r.continent = mapContinent r.region) ∧
    mapContinent (some "Sub-Saharan Africa") = some "Africa" ∧
    (∀ reg : String, reg ∉ continent_map.map Prod.fst →
      mapContinent (some reg) = none) ∧
    mapContinent none = none := by
  refine ⟨?_, by decide, ?_, rfl⟩
  · intro r hr
    obtain ⟨L0, hL0, hmap⟩ := Option.map_eq_some.mp hL
    rw [← hmap] at hr
    obtain ⟨x, hx, rfl⟩ := List.mem_map.mp hr
    rfl
  · intro reg hreg
    show List.lookup reg continent_map = none
    rw [List.lookup_eq_none_iff]
    intro q hq
    rw [bne_iff_ne]
    intro he
    exact hreg (he ▸ List.mem_map_of_mem Prod.fst hq)

/-- Witness for C6: the statement applied to empty input tables and to
the concrete unlisted region `"Atlantis"`. -/
theorem C6_continent_remap_witness :
    mapContinent (some "Sub-Saharan Africa") = some "Africa" ∧
    mapContinent (some "Atlantis") = none :=
  ⟨(C6_continent_remap ⟨[], []⟩ ⟨[], []⟩ [] rfl).2.1,
   (C6_continent_remap ⟨[], []⟩ ⟨[], []⟩ [] rfl).2.2.1 "Atlantis" (by decide)⟩

/-! Claim C7: totality of the ratio derivation. -/

/-- Claim C7: the ratio of every joined row is `safeDiv gdp population`, a
total function: a missing or zero divisor (the `NaN`/`inf` cases of float
division) yields a missing result and never an error, and a nonzero
divisor yields the exact quotient. -/
theorem C7_ratio_total (m : MainTable) (p : PopTable) (L : List MergedRow)
    (hL : merged_ratio m p = some L) :
    (∀ r ∈ L, r.gdp_per_capita = safeDiv r.gdp r.population) ∧
    (∀ g : Option ℚ, safeDiv g none = none) ∧
    (∀ g : Option ℚ, safeDiv g (some 0) = none) ∧
    (∀ a b : ℚ, b ≠ 0 → safeDiv (some a) (some b) = some (a / b)) := by
  refine ⟨?_, ?_, ?_, ?_⟩
  · intro r hr
    obtain ⟨pl, hpl, hmap⟩ := Option.map_eq_some.mp hL
    rw [← hmap] at hr
    obtain ⟨x, hx, rfl⟩ := List.mem_map.mp hr
    rfl
  · intro g; cases g <;> rfl
  · intro g; cases g <;> simp [safeDiv]
  · intro a b hb; simp [safeDiv, hb]

/-- Witness for C7: the statement applied to empty tables and concrete
dividends and divisors. -/
theorem C7_ratio_total_witness :
    safeDiv (some 5) none = none ∧
    safeDiv (some 5) (some 0) = none ∧
    safeDiv (some 5) (some 2) = some (5 / 2) :=
  ⟨(C7_ratio_total ⟨[], []⟩ ⟨[], []⟩ [] rfl).2.1 (some 5),
   (C7_ratio_total ⟨[], []⟩ ⟨[], []⟩ [] rfl).2.2.1 (some 5),
   (C7_ratio_total ⟨[], []⟩ ⟨[], []⟩ [] rfl).2.2.2 5 2 (by simp)⟩

/-! Claim C5: the inclusive year window. -/

/-- Claim C5: the final export keeps exactly the rows whose year lies in
the inclusive window `[2010, 2020]`: every exported row's year is inside
the window (so a year-2009 row can never be exported), and every
pre-filter row with a year inside the window — 2010 and 2020 included —
appears, rounded, in the export. -/
theorem C5_year_filter (m : MainTable) (p : PopTable) (E F : List MergedRow)
    (hE : merged_sortedNY m p = some E)
    (hF : transform_data m p = some F) :
    (∀ r ∈ F, 2010 ≤ r.year ∧ r.year ≤ 2020) ∧
    (∀ r ∈ E, 2010 ≤ r.year → r.year ≤ 2020 → roundRow r ∈ F) := by
  have hFE : F = (E.filter inWindow).map roundRow := by
    unfold transform_data at hF
    rw [hE] at hF
    simpa using hF.symm
  constructor
  · intro r hr
    rw [hFE] at hr
    obtain ⟨s, hs, rfl⟩ := List.mem_map.mp hr
    have hsw := (List.mem_filter.mp hs).2
    simp only [inWindow, Bool.and_eq_true, decide_eq_true_iff] at hsw
    exact ⟨hsw.1, hsw.2⟩
  · intro r hr h1 h2
    rw [hFE]
    apply List.mem_map_of_mem
    exact List.mem_filter.mpr ⟨hr, by simp [inWindow, h1, h2]⟩

/-- Witness for C5: on the concrete tables, the 2009 row is dropped and
the in-window 2015 row is exported. -/
theorem C5_year_filter_witness :
    (∀ r ∈ [rW15], 2010 ≤ r.year ∧ r.year ≤ 2020) ∧ roundRow rW15 ∈ [rW15] :=
  ⟨(C5_year_filter mainW5 popW5 [rW09, rW15] [rW15] (by decide) (by decide)).1,
   (C5_year_filter mainW5 popW5 [rW09, rW15] [rW15] (by decide) (by decide)).2
     rW15 (by decide) (by decide) (by decide)⟩

/-! Claim C2: the left join. -/

/-- The block structure of the left join when the right-hand keys are
duplicate-free: exactly one output row per left row, projecting back to
the left row, and unmatched rows carry a missing population. -/
theorem mergeLeft_unique_keys (pl : List PopLongRow)
    (hkeys : (pl.map popKey).Nodup) :
    ∀ gdp : List GdpRow,
      (mergeLeft gdp pl).length = gdp.length ∧
      (mergeLeft gdp pl).map toGdpRow = gdp ∧
      ∀ x ∈ mergeLeft gdp pl,
        (∀ q ∈ pl, popKey q ≠ (x.country_code, x.country_name, x.year)) →
          x.population = none := by
  intro gdp
  induction gdp with
  | nil => exact ⟨rfl, rfl, by intro x hx; cases hx⟩
  | cons g gs ih =>
    have hunf : mergeLeft (g :: gs) pl =
        (match pl.filter (fun q => decide (popKey q = gdpKey g)) with
          | [] => [mergeRows g none]
          | q :: qs => (q :: qs).map (fun q2 => mergeRows g q2.population)) ++
          mergeLeft gs pl := by
      unfold mergeLeft
      rw [List.flatMap_cons]
    rcases filter_key_single popKey pl (gdpKey g) hkeys with hnil | ⟨q, hone, hqm, hqk⟩
    · rw [hunf, hnil]
      refine ⟨?_, ?_, ?_⟩
      · simp [ih.1]
      · simp only [List.map_append, ih.2.1]
        rfl
      · intro x hx hnomatch
        rcases List.mem_append.mp hx with hx1 | hx2
        · rw [List.mem_singleton] at hx1
          rw [hx1]
          rfl
        · exact ih.2.2 x hx2 hnomatch
    · rw [hunf, hone]
      refine ⟨?_, ?_, ?_⟩
      · simp [ih.1]
      · simp only [List.map_append, ih.2.1, List.map_cons, List.map_nil]
        rfl
      · intro x hx hnomatch
        rcases List.mem_append.mp hx with hx1 | hx2
        · simp only [List.map_cons, List.map_nil, List.mem_singleton] at hx1
          rw [hx1] at hnomatch
          exact absurd hqk (hnomatch q hqm)
        · exact ih.2.2 x hx2 hnomatch

/-- Claim C2, amended: the merge is a left join — when the population
long table has duplicate-free `(entity_code, entity_name, year)` keys the
joined table has exactly as many rows as the GDP long table, every GDP
row appears exactly once (in order), and rows without a population match
carry a missing population.  (Without the key condition a GDP row is
repeated once per matching population row, as the counterexample shows,
so the row counts can differ.) -/
theorem C2_left_join (m : MainTable) (p : PopTable) (pl : List PopLongRow)
    (hpl : pop_long m p = some pl)
    (hkeys : (pl.map popKey).Nodup) :
    merged_ratio m p = some (withRatio (mergeLeft (gdp_long m) pl)) ∧
    (mergeLeft (gdp_long m) pl).length = (gdp_long m).length ∧
    (mergeLeft (gdp_long m) pl).map toGdpRow = gdp_long m ∧
    ∀ x ∈ mergeLeft (gdp_long m) pl,
      (∀ q ∈ pl, popKey q ≠ (x.country_code, x.country_name, x.year)) →
        x.population = none := by
  have h := mergeLeft_unique_keys pl hkeys (gdp_long m)
  refine ⟨?_, h.1, h.2.1, h.2.2⟩
  unfold merged_ratio
  rw [hpl]
  rfl

/-- Claim C2 counterexample: with a duplicated population key the joined
table has two rows for the single GDP row, so the join does not always
keep exactly as many rows as the GDP long table. -/
theorem C2_counterexample :
    (merged_ratio mainOne popDupRows).map List.length = some 2 ∧
    (gdp_long mainOne).length = 1 := by decide

/-- Witness for C2: the amended statement applied to the concrete
one-row tables. -/
theorem C2_left_join_witness :
    (mergeLeft (gdp_long mainOne) plW2).length = (gdp_long mainOne).length ∧
    (mergeLeft (gdp_long mainOne) plW2).map toGdpRow = gdp_long mainOne :=
  ⟨(C2_left_join mainOne popW2 plW2 (by decide) (by decide)).2.1,
   (C2_left_join mainOne popW2 plW2 (by decide) (by decide)).2.2.1⟩

/-! Claim C10: the population melt uses the main table's year columns. -/

/-- Association lookup distributes over appended lists. -/
theorem lookup_append {α β : Type _} [BEq α] (l1 l2 : List (α × β)) (k : α) :
    List.lookup k (l1 ++ l2) =
      match List.lookup k l1 with
      | some v => some v
      | none => List.lookup k l2 := by
  induction l1 with
  | nil => rfl
  | cons q qs ih =>
    obtain ⟨qk, qv⟩ := q
    rw [List.cons_append, List.lookup_cons, List.lookup_cons]
    cases h : k == qk
    · simp only [h]
      exact ih
    · simp only [h]

/-- `flatMap` respects functions that agree on the list's elements. -/
theorem flatMap_congr_mem {α β : Type _} {l : List α} {f g : α → List β}
    (h : ∀ a ∈ l, f a = g a) : l.flatMap f = l.flatMap g := by
  induction l with
  | nil => rfl
  | cons x xs ih =>
    rw [List.flatMap_cons, List.flatMap_cons, h x (List.mem_cons_self x xs),
      ih fun a ha => h a (List.mem_cons_of_mem _ ha)]

/-- `all` respects predicates that agree on the list's elements. -/
theorem all_congr_mem {α : Type _} {l : List α} {f g : α → Bool}
    (h : ∀ a ∈ l, f a = g a) : l.all f = l.all g := by
  induction l with
  | nil => rfl
  | cons x xs ih =>
    rw [List.all_cons, List.all_cons, h x (List.mem_cons_self x xs),
      ih fun a ha => h a (List.mem_cons_of_mem _ ha)]

/-- Reading a cell under a label different from a newly appended column's
label ignores the appended column. -/
theorem cellAt_append_snoc {yc : List String} {cells : List (Option ℚ)}
    (hlen : yc.length = cells.length) {c d : String} (hdc : d ≠ c)
    (v : Option ℚ) :
    cellAt (yc ++ [c]) (cells ++ [v]) d = cellAt yc cells d := by
  unfold cellAt
  rw [List.zip_append hlen, lookup_append]
  cases h : List.lookup d (yc.zip cells)
  · have hsingle : List.lookup d ([c].zip [v]) = none := by
      show List.lookup d [(c, v)] = none
      rw [List.lookup_cons]
      have hbeq : (d == c) = false := by simp [hdc]
      simp only [hbeq]
      rfl
    simp only [h, hsingle]
  · simp only [h]

/-- Claim C10: `transform_data` melts the population table with the year
columns computed from the main table.  First: a year column present only
in the population table is silently ignored (appending it changes
nothing).  Second: a digit column of the main table that is absent from
the population table makes the transform raise (modelled as `none`)
instead of producing output. -/
theorem C10_pop_melt_main_years :
    (∀ (m : MainTable) (p : PopTable) (c : String) (v : Option ℚ),
      c ∉ digitCols m →
      (∀ r ∈ p.rows, p.yearCols.length = r.cells.length) →
      pop_long m (appendCol p c v) = pop_long m p) ∧
    (∀ (m : MainTable) (p : PopTable) (c : String),
      c ∈ digitCols m → c ∉ p.yearCols → transform_data m p = none) := by
  constructor
  · intro m p c v hc hwf
    unfold pop_long appendCol
    have hcond :
        ((digitCols m).all fun d => (p.yearCols ++ [c]).contains d) =
          ((digitCols m).all fun d => p.yearCols.contains d) := by
      apply all_congr_mem
      intro d hd
      have hdc : d ≠ c := fun he => hc (he ▸ hd)
      show (p.yearCols ++ [c]).elem d = p.yearCols.elem d
      rw [List.elem_eq_mem, List.elem_eq_mem]
      rw [decide_eq_decide]
      rw [List.mem_append, List.mem_singleton]
      exact or_iff_left hdc
    rw [hcond]
    by_cases hall : ((digitCols m).all fun d => p.yearCols.contains d) = true
    · rw [if_pos hall, if_pos hall]
      congr 1
      apply flatMap_congr_mem
      intro d hd
      have hdc : d ≠ c := fun he => hc (he ▸ hd)
      rw [List.map_map]
      apply List.map_congr_left
      intro r hr
      show PopLongRow.mk r.country_name r.country_code (parseYear d)
          (cellAt (p.yearCols ++ [c]) (r.cells ++ [v]) d) = _
      rw [cellAt_append_snoc (hwf r hr) hdc]
    · rw [if_neg hall, if_neg hall]
  · intro m p c hc hnc
    have hfail : ((digitCols m).all fun d => p.yearCols.contains d) = false := by
      cases hall : ((digitCols m).all fun d => p.yearCols.contains d)
      · rfl
      · exfalso
        have hcont := List.all_eq_true.mp hall c hc
        exact hnc (by simpa using hcont)
    have hpl : pop_long m p = none := by
      unfold pop_long
      rw [hfail]
      rfl
    unfold transform_data merged_sortedNY merged_continent merged_change
      merged_sortedCY merged_ratio
    rw [hpl]
    rfl

/-- Witness for C10: appending an extra year column `"x"` to the one-row
population table changes nothing, and melting against a main table whose
digit column `"2019"` is missing from the population table fails. -/
theorem C10_pop_melt_main_years_witness :
    pop_long mainOne (appendCol popW2 "x" (some 5)) = pop_long mainOne popW2 ∧
    transform_data mainOne { yearCols := [], rows := [] } = none :=
  ⟨C10_pop_melt_main_years.1 mainOne popW2 "x" (some 5) (by decide) (by decide),
   C10_pop_melt_main_years.2 mainOne { yearCols := [], rows := [] } "2019"
     (by decide) (by decide)⟩

/-! Claim C4: years and keys of the unpivoted GDP table. -/

/-- Every valid year label parses into the closed range 1960–2023. -/
theorem valid_years_range :
    ∀ s ∈ valid_years, 1960 ≤ parseYear s ∧ parseYear s ≤ 2023 := by decide

/-- Distinct valid year labels parse to distinct years. -/
theorem valid_years_parse_nodup : (valid_years.map parseYear).Nodup := by decide

/-- Surviving a column drop means surviving the label filter. -/
theorem mem_dropCols_yearCols {bad : List String} {t : MainTable} {c : String} :
    c ∈ (dropCols bad t).yearCols ↔ c ∈ t.yearCols ∧ c ∉ bad := by
  simp [dropCols, List.mem_filter]

/-- Membership in the invalid-column list. -/
theorem mem_invalidCols {t : MainTable} {c : String} :
    c ∈ invalidCols t ↔ (c ∈ t.yearCols ∧ isYearCol c = true) ∧ c ∉ valid_years := by
  simp only [invalidCols, List.mem_filter, decide_eq_true_iff]

/-- Every digit column that survives `clean_data` is a valid year label. -/
theorem clean_main_digitCols_valid (t : MainTable) :
    ∀ c ∈ digitCols (clean_main t), c ∈ valid_years := by
  intro c hc
  rw [digitCols, List.mem_filter] at hc
  obtain ⟨hmem, hdig⟩ := hc
  have hmem2 := (mem_dropCols_yearCols.mp hmem).1
  obtain ⟨hmem3, hninv⟩ := mem_dropCols_yearCols.mp hmem2
  by_contra hcv
  exact hninv (mem_invalidCols.mpr ⟨⟨hmem3, hdig⟩, hcv⟩)

/-- Claim C4: whenever `clean_data` then `transform_data` actually
produce the unpivoted GDP table (`clean_gdp_long t = some L`; the
all-null column drop can remove the id columns and crash the melt), every
row of it has a year inside the closed range 1960–2023; and provided the
cleaned main table has duplicate-free column labels and
pairwise-distinct entity codes across its rows, every
`(entity_code, year)` pair of the long table is unique.  (The
code-distinctness proviso is necessary: see the counterexample.) -/
theorem C4_melt_years_and_keys (t : MainTable) (L : List GdpRow)
    (hL : clean_gdp_long t = some L) :
    (∀ r ∈ L, 1960 ≤ r.year ∧ r.year ≤ 2023) ∧
    ((clean_main t).yearCols.Nodup →
      ((clean_main t).rows.map MainRow.country_code).Nodup →
      (L.map (fun r => (r.country_code, r.year))).Nodup) := by
  have hLg : L = gdp_long (clean_main t) := by
    simp only [clean_gdp_long] at hL
    split at hL
    · cases hL
    · exact (Option.some.inj hL).symm
  subst hLg
  constructor
  · intro r hr
    rw [gdp_long, List.mem_flatMap] at hr
    obtain ⟨c, hc, hr2⟩ := hr
    obtain ⟨row, hrow, rfl⟩ := List.mem_map.mp hr2
    exact valid_years_range c (clean_main_digitCols_valid t c hc)
  · intro hcols hcodes
    have hdignd : (digitCols (clean_main t)).Nodup :=
      (List.filter_sublist _).nodup hcols
    have hrowsnd : (clean_main t).rows.Nodup := hcodes.of_map
    have hparse := List.inj_on_of_nodup_map valid_years_parse_nodup
    have hcodeinj := List.inj_on_of_nodup_map hcodes
    rw [gdp_long, List.map_flatMap]
    rw [List.nodup_flatMap]
    constructor
    · intro c hc
      rw [List.map_map]
      apply List.Nodup.map_on
      · intro x hx y hy hxy
        simp only [Function.comp_apply, Prod.mk.injEq] at hxy
        exact hcodeinj hx hy hxy.1
      · exact hrowsnd
    · apply List.Pairwise.imp_of_mem ?_ (List.Pairwise.imp (fun h => h) hdignd)
      intro c1 c2 hc1 hc2 hne
      intro k hk1 hk2
      simp only [List.map_map, List.mem_map, Function.comp_apply] at hk1 hk2
      obtain ⟨x, hx, hkx⟩ := hk1
      obtain ⟨y, hy, hky⟩ := hk2
      apply hne
      apply hparse (clean_main_digitCols_valid t c1 hc1)
        (clean_main_digitCols_valid t c2 hc2)
      have : parseYear c1 = k.2 := congrArg Prod.snd hkx
      have : parseYear c2 = k.2 := congrArg Prod.snd hky
      omega

/-- Claim C4 counterexample: on `mainDupCode` — id and year columns all
populated, so `clean_data` drops nothing and the melt is reached — the
only cleaning of rows is the exact-duplicate drop, two distinct rows
sharing an entity code survive, and the melted table repeats the
`(entity_code, year)` pair `("AAA", 2019)`. -/
theorem C4_counterexample :
    (clean_gdp_long mainDupCode).isSome = true ∧
    ¬ ((((clean_gdp_long mainDupCode).getD []).map
        (fun r => (r.country_code, r.year))).Nodup) := by decide

/-- Witness for C4: the statement applied to a concrete two-row,
two-year table with distinct codes and populated id columns. -/
theorem C4_melt_years_and_keys_witness :
    (∀ r ∈ gdp_long (clean_main mainW4), 1960 ≤ r.year ∧ r.year ≤ 2023) ∧
    ((gdp_long (clean_main mainW4)).map
        (fun r => (r.country_code, r.year))).Nodup :=
  ⟨(C4_melt_years_and_keys mainW4 (gdp_long (clean_main mainW4)) (by decide)).1,
   (C4_melt_years_and_keys mainW4 (gdp_long (clean_main mainW4)) (by decide)).2
     (by decide) (by decide)⟩

/-! Claim C3: the end-to-end scenario. -/

/-- Claim C3: end to end through `transform_data`, the scenario main and
population tables produce exactly two exported rows for `"AAA"`, both
with ratio 10.0, the 2020 row with change 0.0, and continent `"Asia"` on
both. -/
theorem C3_end_to_end :
    transform_data mainC3 popC3 = some (rowsC3 none (some 0) (some "Asia")) := by
  have h1 : pop_long mainC3 popC3 =
      some [{ country_name := "A", country_code := "AAA", year := 2019,
              population := some 10 },
            { country_name := "A", country_code := "AAA", year := 2020,
              population := some 11 }] := by decide
  have h2 : mergeLeft (gdp_long mainC3)
      [{ country_name := "A", country_code := "AAA", year := 2019,
         population := some 10 },
       { country_name := "A", country_code := "AAA", year := 2020,
         population := some 11 }] =
      [{ country_name := "A", country_code := "AAA", region := some "South Asia",
         incomegroup := some "Lower middle income", year := 2019,
         gdp := some 100, population := some 10, gdp_per_capita := none,
         gdp_pc_change := none, continent := none },
       { country_name := "A", country_code := "AAA", region := some "South Asia",
         incomegroup := some "Lower middle income", year := 2020,
         gdp := some 110, population := some 11, gdp_per_capita := none,
         gdp_pc_change := none, continent := none }] := by decide
  have h3 : withRatio (mergeLeft (gdp_long mainC3)
      [{ country_name := "A", country_code := "AAA", year := 2019,
         population := some 10 },
       { country_name := "A", country_code := "AAA", year := 2020,
         population := some 11 }]) = rowsC3 none none none := by
    rw [h2]
    norm_num [withRatio, safeDiv, rowsC3]
  have h4 : sortCodeYear (rowsC3 none none none) = rowsC3 none none none := by
    decide
  have h5 : withChange (rowsC3 none none none) =
      rowsC3 none (some 0) none := by
    norm_num [withChange, rowsC3, pctChangeGo, lastWith, pct_change]
  have h6 : withContinent (rowsC3 none (some 0) none) =
      rowsC3 none (some 0) (some "Asia") := by decide
  have h7 : sortNameYear (rowsC3 none (some 0) (some "Asia")) =
      rowsC3 none (some 0) (some "Asia") := by decide
  have h8 : (rowsC3 none (some 0) (some "Asia")).filter inWindow =
      rowsC3 none (some 0) (some "Asia") := by decide
  have h9 : (rowsC3 none (some 0) (some "Asia")).map roundRow =
      rowsC3 none (some 0) (some "Asia") := by
    norm_num [rowsC3, roundRow, roundOpt, roundTo, roundHalfEven]
  unfold transform_data merged_sortedNY merged_continent merged_change
    merged_sortedCY merged_ratio
  rw [h1]
  simp only [Option.map_some']
  rw [h3, h4, h5, h6, h7, h8, h9]

/-! Claim C1: the change column derives from the previous year. -/

/-- The sorted joined table of the change example: ratios 10, 12, 9. -/
theorem sortedC1_eval : merged_sortedCY mainC1 popC1 =
    some [rowC1 2009 100 10 none, rowC1 2010 120 12 none,
          rowC1 2011 90 9 none] := by
  have h1 : pop_long mainC1 popC1 =
      some [{ country_name := "A", country_code := "AAA", year := 2009,
              population := some 10 },
            { country_name := "A", country_code := "AAA", year := 2010,
              population := some 10 },
            { country_name := "A", country_code := "AAA", year := 2011,
              population := some 10 }] := by decide
  have h2 : mergeLeft (gdp_long mainC1)
      [{ country_name := "A", country_code := "AAA", year := 2009,
         population := some 10 },
       { country_name := "A", country_code := "AAA", year := 2010,
         population := some 10 },
       { country_name := "A", country_code := "AAA", year := 2011,
         population := some 10 }] =
      [{ country_name := "A", country_code := "AAA", region := none,
         incomegroup := none, year := 2009, gdp := some 100,
         population := some 10, gdp_per_capita := none, gdp_pc_change := none,
         continent := none },
       { country_name := "A", country_code := "AAA", region := none,
         incomegroup := none, year := 2010, gdp := some 120,
         population := some 10, gdp_per_capita := none, gdp_pc_change := none,
         continent := none },
       { country_name := "A", country_code := "AAA", region := none,
         incomegroup := none, year := 2011, gdp := some 90,
         population := some 10, gdp_per_capita := none, gdp_pc_change := none,
         continent := none }] := by decide
  have h3 : withRatio
      [{ country_name := "A", country_code := "AAA", region := none,
         incomegroup := none, year := 2009, gdp := some 100,
         population := some 10, gdp_per_capita := none, gdp_pc_change := none,
         continent := none },
       { country_name := "A", country_code := "AAA", region := none,
         incomegroup := none, year := 2010, gdp := some 120,
         population := some 10, gdp_per_capita := none, gdp_pc_change := none,
         continent := none },
       { country_name := "A", country_code := "AAA", region := none,
         incomegroup := none, year := 2011, gdp := some 90,
         population := some 10, gdp_per_capita := none, gdp_pc_change := none,
         continent := none }] =
      [rowC1 2009 100 10 none, rowC1 2010 120 12 none, rowC1 2011 90 9 none] := by
    norm_num [withRatio, safeDiv, rowC1]
  have h4 : sortCodeYear
      [rowC1 2009 100 10 none, rowC1 2010 120 12 none, rowC1 2011 90 9 none] =
      [rowC1 2009 100 10 none, rowC1 2010 120 12 none, rowC1 2011 90 9 none] := by
    decide
  unfold merged_sortedCY merged_ratio
  rw [h1]
  simp only [Option.map_some']
  rw [h2, h3, h4]

/-- The change column of the example: missing, then 0.2, then -0.25. -/
theorem changeC1_eval : merged_change mainC1 popC1 =
    some [rowC1 2009 100 10 none, rowC1 2010 120 12 (some (1/5)),
          rowC1 2011 90 9 (some (-(1/4)))] := by
  have h5 : withChange
      [rowC1 2009 100 10 none, rowC1 2010 120 12 none, rowC1 2011 90 9 none] =
      [rowC1 2009 100 10 none, rowC1 2010 120 12 (some (1/5)),
       rowC1 2011 90 9 (some (-(1/4)))] := by
    norm_num [withChange, pctChangeGo, lastWith, pct_change, rowC1]
  rw [merged_change, sortedC1_eval]
  simp only [Option.map_some']
  rw [h5]

/-- The final export of the change example: the 2009 row is filtered out
while the surviving rows keep the changes computed against it. -/
theorem transformC1_eval : transform_data mainC1 popC1 =
    some [rowC1 2010 120 12 (some (1/5)), rowC1 2011 90 9 (some (-(1/4)))] := by
  have h6 : withContinent
      [rowC1 2009 100 10 none, rowC1 2010 120 12 (some (1/5)),
       rowC1 2011 90 9 (some (-(1/4)))] =
      [rowC1 2009 100 10 none, rowC1 2010 120 12 (some (1/5)),
       rowC1 2011 90 9 (some (-(1/4)))] := by
    norm_num [withContinent, mapContinent, rowC1]
  have h7 : sortNameYear
      [rowC1 2009 100 10 none, rowC1 2010 120 12 (some (1/5)),
       rowC1 2011 90 9 (some (-(1/4)))] =
      [rowC1 2009 100 10 none, rowC1 2010 120 12 (some (1/5)),
       rowC1 2011 90 9 (some (-(1/4)))] := by
    norm_num [sortNameYear, List.insertionSort, List.orderedInsert, byNameYear,
      strKey, rowC1]
  have h8 : List.filter inWindow
      [rowC1 2009 100 10 none, rowC1 2010 120 12 (some (1/5)),
       rowC1 2011 90 9 (some (-(1/4)))] =
      [rowC1 2010 120 12 (some (1/5)), rowC1 2011 90 9 (some (-(1/4)))] := by
    norm_num [inWindow, rowC1]
  have h9 : List.map roundRow
      [rowC1 2010 120 12 (some (1/5)), rowC1 2011 90 9 (some (-(1/4)))] =
      [rowC1 2010 120 12 (some (1/5)), rowC1 2011 90 9 (some (-(1/4)))] := by
    norm_num [roundRow, roundOpt, roundTo, roundHalfEven, rowC1]
  unfold transform_data merged_sortedNY merged_continent
  rw [changeC1_eval]
  simp only [Option.map_some']
  rw [h6, h7, h8, h9]

/-- Under equal codes, the sort relation orders by year. -/
theorem byCodeYear_le_year {x y : MergedRow} (h : byCodeYear x y)
    (hcode : x.country_code = y.country_code) : x.year ≤ y.year := by
  rcases h with h | ⟨h2, hy⟩
  · exfalso
    rw [hcode] at h
    exact lt_irrefl _ h
  · exact hy

/-- In a sorted list with duplicate-free `(code, year)` keys, a same-code
row before the split point has a strictly smaller year. -/
theorem strict_year_of_pre {S pre post : List MergedRow} {r x : MergedRow}
    (hsorted : List.Pairwise byCodeYear S)
    (hkeys : (S.map fun t => (t.country_code, t.year)).Nodup)
    (hsplit : S = pre ++ r :: post)
    (hx : x ∈ pre) (hcode : x.country_code = r.country_code) :
    x.year < r.year := by
  subst hsplit
  obtain ⟨hpre, hrpost, hcross⟩ := List.pairwise_append.mp hsorted
  have hle : x.year ≤ r.year :=
    byCodeYear_le_year (hcross x hx r (List.mem_cons_self _ _)) hcode
  rcases Nat.lt_or_ge x.year r.year with h | h
  · exact h
  · exfalso
    have hyeq : x.year = r.year := le_antisymm hle h
    rw [List.map_append, List.map_cons] at hkeys
    obtain ⟨hnd1, hnd2, hdisj⟩ := List.nodup_append.mp hkeys
    exact hdisj (List.mem_map_of_mem _ hx)
      (by rw [hcode, hyeq]; exact List.mem_cons_self _ _)

/-- In a sorted list, a same-code row with a strictly smaller year than
the split row sits before the split point. -/
theorem same_code_smaller_mem_pre {S pre post : List MergedRow}
    {r q : MergedRow}
    (hsorted : List.Pairwise byCodeYear S)
    (hsplit : S = pre ++ r :: post)
    (hq : q ∈ S) (hcode : q.country_code = r.country_code)
    (hlt : q.year < r.year) : q ∈ pre := by
  subst hsplit
  obtain ⟨hpre, hrpost, hcross⟩ := List.pairwise_append.mp hsorted
  rcases List.mem_append.mp hq with h | h
  · exact h
  · exfalso
    rcases List.mem_cons.mp h with rfl | h2
    · exact lt_irrefl _ hlt
    · have hle : r.year ≤ q.year :=
        byCodeYear_le_year ((List.pairwise_cons.mp hrpost).1 q h2) hcode.symm
      omega

/-- Claim C1 counterexample: on a cleaned main table (provably its own
`clean_data` image, so the input is reachable) whose two distinct rows
share the code `"AAA"` and the single year 2019, every `"AAA"` row
carries the entity's first year — no row of the series has an earlier
year — yet `groupby.pct_change` gives the second row the computed change
0.2 against its same-year predecessor instead of the missing value the
claim requires for a first year. -/
theorem C1_counterexample :
    clean_main mainDup1 = mainDup1 ∧
    merged_change mainDup1 popDup1 =
      some [rowD "A" 100 10 none, rowD "B" 120 12 (some (1/5))] ∧
    (rowD "B" 120 12 (some (1/5))).gdp_pc_change ≠ none ∧
    (∀ q ∈ [rowD "A" 100 10 none, rowD "B" 120 12 (some (1/5))],
      q.country_code = "AAA" ∧ q.year = 2019) := by
  have h1 : pop_long mainDup1 popDup1 =
      some [{ country_name := "A", country_code := "AAA", year := 2019,
              population := some 10 },
            { country_name := "B", country_code := "AAA", year := 2019,
              population := some 10 }] := by decide
  have h2 : mergeLeft (gdp_long mainDup1)
      [{ country_name := "A", country_code := "AAA", year := 2019,
         population := some 10 },
       { country_name := "B", country_code := "AAA", year := 2019,
         population := some 10 }] =
      [{ country_name := "A", country_code := "AAA",
         region := some "South Asia", incomegroup := some "High income",
         year := 2019, gdp := some 100, population := some 10,
         gdp_per_capita := none, gdp_pc_change := none, continent := none },
       { country_name := "B", country_code := "AAA",
         region := some "South Asia", incomegroup := some "High income",
         year := 2019, gdp := some 120, population := some 10,
         gdp_per_capita := none, gdp_pc_change := none, continent := none }] := by
    decide
  have h3 : withRatio
      [{ country_name := "A", country_code := "AAA",
         region := some "South Asia", incomegroup := some "High income",
         year := 2019, gdp := some 100, population := some 10,
         gdp_per_capita := none, gdp_pc_change := none, continent := none },
       { country_name := "B", country_code := "AAA",
         region := some "South Asia", incomegroup := some "High income",
         year := 2019, gdp := some 120, population := some 10,
         gdp_per_capita := none, gdp_pc_change := none, continent := none }] =
      [rowD "A" 100 10 none, rowD "B" 120 12 none] := by
    norm_num [withRatio, safeDiv, rowD]
  have h4 : sortCodeYear [rowD "A" 100 10 none, rowD "B" 120 12 none] =
      [rowD "A" 100 10 none, rowD "B" 120 12 none] := by decide
  have h5 : withChange [rowD "A" 100 10 none, rowD "B" 120 12 none] =
      [rowD "A" 100 10 none, rowD "B" 120 12 (some (1/5))] := by
    norm_num [withChange, pctChangeGo, lastWith, pct_change, rowD]
  refine ⟨by decide, ?_, by decide, by decide⟩
  unfold merged_change merged_sortedCY merged_ratio
  rw [h1]
  simp only [Option.map_some']
  rw [h2, h3, h4, h5]

/-- Claim C1, amended: provided the sorted joined table has at most one
row per `(entity_code, year)` key — as holds whenever entity codes are
unique in the cleaned main table, and as the claim's phrase "the
immediately preceding year's ratio" presumes — the derived change of
each row is the fractional change of its ratio against the same entity's
row of the immediately preceding year present in the unfiltered series,
and missing when the entity has no earlier year; on the concrete entity
with ratios `[10, 12, 9]` over 2009–2011 the change column is
`[missing, 0.2, -0.25]`, with the in-window rows keeping the changes
computed against the out-of-window year 2009 through the final filter
and rounding.  (Without the key proviso the claim fails: see the
counterexample.) -/
theorem C1_change_prev_year (m : MainTable) (p : PopTable) (S : List MergedRow)
    (hS : merged_sortedCY m p = some S)
    (hkeys : (S.map fun t => (t.country_code, t.year)).Nodup)
    (pre : List MergedRow) (r : MergedRow) (post : List MergedRow)
    (hsplit : S = pre ++ r :: post) :
    merged_change m p = some (withChange S) ∧
    ((∀ q ∈ S, q.country_code = r.country_code → ¬ q.year < r.year) →
      (withChange S)[pre.length]? = some { r with gdp_pc_change := none }) ∧
    (∀ q ∈ S, q.country_code = r.country_code → q.year < r.year →
      (∀ q2 ∈ S, q2.country_code = r.country_code → q2.year < r.year →
        q2.year ≤ q.year) →
      (withChange S)[pre.length]? =
        some { r with gdp_pc_change := pct_change q.gdp_per_capita r.gdp_per_capita }) ∧
    merged_change mainC1 popC1 =
      some [rowC1 2009 100 10 none, rowC1 2010 120 12 (some (1/5)),
            rowC1 2011 90 9 (some (-(1/4)))] ∧
    transform_data mainC1 popC1 =
      some [rowC1 2010 120 12 (some (1/5)), rowC1 2011 90 9 (some (-(1/4)))] := by
  have hsorted : List.Pairwise byCodeYear S := by
    cases hmr : merged_ratio m p with
    | none => rw [merged_sortedCY, hmr] at hS; cases hS
    | some L0 =>
      rw [merged_sortedCY, hmr] at hS
      simp only [Option.map_some'] at hS
      have hsort : sortCodeYear L0 = S := Option.some.inj hS
      rw [← hsort]
      exact List.sorted_insertionSort byCodeYear L0
  have hchain : withChange S = pctChangeGo [] pre ++
      ({ r with gdp_pc_change :=
          (match lastWith (fun q => decide (q.country_code = r.country_code)) pre with
            | none => none
            | some q => pct_change q.gdp_per_capita r.gdp_per_capita) } ::
        pctChangeGo (pre ++ [r]) post) := by
    rw [withChange, hsplit, pctChangeGo_append]
    rfl
  have hgetc : (withChange S)[pre.length]? = some { r with gdp_pc_change :=
      (match lastWith (fun q => decide (q.country_code = r.country_code)) pre with
        | none => none
        | some q => pct_change q.gdp_per_capita r.gdp_per_capita) } := by
    rw [hchain, List.getElem?_append, length_pctChangeGo]
    simp
  refine ⟨?_, ?_, ?_, changeC1_eval, transformC1_eval⟩
  · rw [merged_change, hS]
    rfl
  · intro hno
    have hnone :
        lastWith (fun q => decide (q.country_code = r.country_code)) pre = none := by
      rw [lastWith_eq_none]
      intro x hx
      rw [decide_eq_false_iff_not]
      intro hcode
      exact hno x (by rw [hsplit]; exact List.mem_append_left _ hx) hcode
        (strict_year_of_pre hsorted hkeys hsplit hx hcode)
    rw [hgetc, hnone]
  · intro q hq hcode hlt hmax
    have hqpre : q ∈ pre := same_code_smaller_mem_pre hsorted hsplit hq hcode hlt
    obtain ⟨y, hy⟩ :=
      lastWith_isSome (p := fun t => decide (t.country_code = r.country_code))
        hqpre (decide_eq_true_iff.mpr hcode)
    obtain ⟨hpy, l1, l2, hpresplit, hafter⟩ := lastWith_split hy
    have hycode : y.country_code = r.country_code := of_decide_eq_true hpy
    have hymem : y ∈ pre := by
      rw [hpresplit]
      exact List.mem_append_right _ (List.mem_cons_self _ _)
    have hylt : y.year < r.year :=
      strict_year_of_pre hsorted hkeys hsplit hymem hycode
    have hyS : y ∈ S := by
      rw [hsplit]
      exact List.mem_append_left _ hymem
    have hle1 : y.year ≤ q.year := hmax y hyS hycode hylt
    have hprepw : List.Pairwise byCodeYear pre := by
      have hsortedSplit : List.Pairwise byCodeYear (pre ++ r :: post) :=
        hsplit ▸ hsorted
      exact (List.pairwise_append.mp hsortedSplit).1
    have hle2 : q.year ≤ y.year := by
      have hqpre2 := hqpre
      rw [hpresplit] at hqpre2
      rcases List.mem_append.mp hqpre2 with hq1 | hq2
      · have hsplitpw : List.Pairwise byCodeYear (l1 ++ y :: l2) :=
          hpresplit ▸ hprepw
        have hqy := (List.pairwise_append.mp hsplitpw).2.2 q hq1 y
          (List.mem_cons_self _ _)
        exact byCodeYear_le_year hqy (hcode.trans hycode.symm)
      · rcases List.mem_cons.mp hq2 with rfl | hq3
        · exact le_refl _
        · exfalso
          have hfalse := hafter q hq3
          rw [decide_eq_false_iff_not] at hfalse
          exact hfalse hcode
    have hqy : q = y := by
      apply List.inj_on_of_nodup_map hkeys hq hyS
      have hyear : q.year = y.year := le_antisymm hle2 hle1
      rw [Prod.mk.injEq]
      exact ⟨hcode.trans hycode.symm, hyear⟩
    rw [hgetc, hy, hqy]

/-- Witness for C1: on a concrete sorted two-row series for one entity,
the first row's change is missing and the second row's change is the
fractional change against the first row (the previous year). -/
theorem C1_change_prev_year_witness :
    (withChange [rW09, rW15])[0]? = some { rW09 with gdp_pc_change := none } ∧
    (withChange [rW09, rW15])[1]? = some { rW15 with
      gdp_pc_change := pct_change rW09.gdp_per_capita rW15.gdp_per_capita } := by
  have hS : merged_sortedCY mainW5 popW5 = some [rW09, rW15] := by decide
  constructor
  · exact (C1_change_prev_year mainW5 popW5 [rW09, rW15] hS (by decide)
      [] rW09 [rW15] rfl).2.1 (by decide)
  · exact (C1_change_prev_year mainW5 popW5 [rW09, rW15] hS (by decide)
      [rW09] rW15 [] rfl).2.2.1 rW09 (by decide) (by decide) (by decide)
      (by decide)

end ETL
